import Mathlib

/-!
Shallow embedding of the AI chat pipeline of the saas-boilerplate
repository: the flexible authentication middleware, the model registry and
provider router of the AI router service, the chat route handlers
(POST /api/chat, GET /api/chat/conversations, GET /api/chat/conversations/:id)
and the relational rows they read and write (schema of the database
initialization script).

Modelling conventions:
- JavaScript numbers are exact rationals; token counts are naturals.
- Server-assigned CURRENT_TIMESTAMP values are modelled by a strictly
  increasing natural-number clock carried in the database state (one tick
  per INSERT), the idealization under which successive inserts receive
  distinct increasing timestamps.
- The outbound vendor HTTP call is an oracle function passed as a
  parameter; every function that may issue vendor calls also returns the
  list of requests it actually issued, so that claims about calls never
  being made are expressible.
- JavaScript truthiness on possibly absent strings: absent and empty are
  falsy, everything else truthy.
- SQL SELECT with ORDER BY is an insertion sort on the ordering column;
  LIMIT is List.take after sorting.
-/

namespace SaasChat

/-- JavaScript truthiness of a possibly absent string: absent and the empty
string are falsy, every other string is truthy. -/
def truthy : Option String → Bool
  | none => false
  | some s => s != ""

/-- JavaScript logical-or of a possibly absent string with a string
default, as in `process.env.DEV_USER_ID || 'dev-user'`. -/
def orDefaultStr (a : Option String) (d : String) : String :=
  match a with
  | some s => if s != "" then s else d
  | none => d

/-- Environment of the auth middleware: NODE_ENV and DEV_USER_ID. -/
structure AuthEnv where
  nodeEnv : Option String
  devUserId : Option String
deriving DecidableEq

/-- The four identity sources read by flexibleAuth, in source order:
req.session?.userId, req.auth?.userId, the x-user-id header, the userId
query parameter. -/
structure AuthRequest where
  sessionUserId : Option String
  authUserId : Option String
  headerUserId : Option String
  queryUserId : Option String
deriving DecidableEq

/-- Outcome of the middleware: respond 401, or call next with req.userId
set. -/
inductive AuthResult where
  | respond401
  | next (userId : String)
deriving DecidableEq

/-- The JavaScript chain session || auth || header || query, collapsed to
the first truthy source (none when all four are falsy, matching the
subsequent !userId test). -/
def resolveUserId (r : AuthRequest) : Option String :=
  if truthy r.sessionUserId then r.sessionUserId
  else if truthy r.authUserId then r.authUserId
  else if truthy r.headerUserId then r.headerUserId
  else if truthy r.queryUserId then r.queryUserId
  else none

/-- The flexibleAuth middleware of the auth middleware module: 401 when no
source is truthy in production, dev fallback identity when no source is
truthy outside production, otherwise the resolved identity. -/
def flexibleAuth (env : AuthEnv) (r : AuthRequest) : AuthResult :=
  let userId := resolveUserId r
  if userId.isNone && (env.nodeEnv == some "production") then
    AuthResult.respond401
  else if userId.isNone && !(env.nodeEnv == some "production") then
    AuthResult.next (orDefaultStr env.devUserId "dev-user")
  else
    AuthResult.next (userId.getD "")

/-- One entry of the MODELS registry of the AI router service. -/
structure ModelConfig where
  provider : String
  modelId : String
  maxTokens : Nat
  inputCostPer1k : ℚ
  outputCostPer1k : ℚ
deriving DecidableEq

/-- The static MODELS catalog of the AI router service, with the decimal
price literals written as exact rationals. -/
def MODELS : List (String × ModelConfig) :=
  [ ("claude-3-5-sonnet",
      ⟨"anthropic", "claude-3-5-sonnet-20241022", 8192, 3/1000, 15/1000⟩),
    ("claude-3-haiku",
      ⟨"anthropic", "claude-3-haiku-20240307", 4096, 25/100000, 125/100000⟩),
    ("gpt-4o",
      ⟨"openai", "gpt-4o", 4096, 5/1000, 15/1000⟩),
    ("gpt-4o-mini",
      ⟨"openai", "gpt-4o-mini", 4096, 15/100000, 6/10000⟩) ]

/-- The registry lookup MODELS[model]. -/
def lookupModel (m : String) : Option ModelConfig :=
  (MODELS.find? (fun p => p.1 == m)).map (fun p => p.2)

/-- A role and content pair as sent to a provider. -/
structure RoleContent where
  role : String
  content : String
deriving DecidableEq

/-- The request object built for anthropic.messages.create. -/
structure AnthropicRequest where
  model : String
  maxTokens : Nat
  system : String
  messages : List RoleContent
deriving DecidableEq

/-- The request object built for openai.chat.completions.create. -/
structure OpenAIRequest where
  model : String
  maxTokens : Nat
  messages : List RoleContent
deriving DecidableEq

/-- An outbound vendor API request (the one network side effect). -/
inductive VendorRequest where
  | anthropic (r : AnthropicRequest)
  | openai (r : OpenAIRequest)
deriving DecidableEq

/-- The fields of a vendor response the code reads, each optional to model
the optional-chaining reads (response.content[0]?.text,
response.usage?.input_tokens and friends). -/
structure VendorResponse where
  text : Option String
  inputTokens : Option Nat
  outputTokens : Option Nat
deriving DecidableEq

/-- The typed failures thrown by the AI router service, carrying the
thrown message where the code interpolates one. -/
inductive ChatError where
  | unknownModel (model : String)
  | providerUnconfigured (message : String)
  | unsupportedProvider (provider : String)
  | providerError (message : String)
deriving DecidableEq

/-- Discriminator for the credential-guard failure. -/
def ChatError.isProviderUnconfigured : ChatError → Bool
  | ChatError.providerUnconfigured _ => true
  | _ => false

/-- The usage object of a successful chat result. -/
structure Usage where
  inputTokens : Nat
  outputTokens : Nat
  totalTokens : Nat
  cost : ℚ
deriving DecidableEq

/-- A successful chat result as returned by the AI router. -/
structure ChatResult where
  content : String
  model : String
  usage : Usage
deriving DecidableEq

/-- The process environment the AI router reads its credentials from. -/
structure Env where
  anthropicApiKey : Option String
  openaiApiKey : Option String

/-- The outbound network call, abstracted: a vendor request either fails
with a transport or vendor error message or yields a response. -/
abbrev Oracle := VendorRequest → Except String VendorResponse

/-- The request object chatAnthropic builds: vendor model id, max tokens,
the system prompt (or the default) in the dedicated system field, and the
message list with every role other than user coerced to assistant. -/
def anthropicRequestOf (cfg : ModelConfig) (systemPrompt : Option String)
    (messages : List RoleContent) : AnthropicRequest :=
  { model := cfg.modelId
    maxTokens := cfg.maxTokens
    system := orDefaultStr systemPrompt "You are a helpful assistant."
    messages := messages.map (fun m =>
      ⟨if m.role == "user" then "user" else "assistant", m.content⟩) }

/-- The chatAnthropic branch of the AI router: credential guard, one
vendor call, usage extraction with the zero fallbacks, cost computed from
the registry prices. -/
def chatAnthropic (env : Env) (oracle : Oracle) (cfg : ModelConfig)
    (messages : List RoleContent) (systemPrompt : Option String) :
    Except ChatError ChatResult × List VendorRequest :=
  if !(truthy env.anthropicApiKey) then
    (Except.error (ChatError.providerUnconfigured "Anthropic API key not configured"), [])
  else
    let req := anthropicRequestOf cfg systemPrompt messages
    match oracle (VendorRequest.anthropic req) with
    | Except.error e =>
        (Except.error (ChatError.providerError e), [VendorRequest.anthropic req])
    | Except.ok resp =>
        let inputTokens := resp.inputTokens.getD 0
        let outputTokens := resp.outputTokens.getD 0
        let cost := (inputTokens : ℚ) / 1000 * cfg.inputCostPer1k
          + (outputTokens : ℚ) / 1000 * cfg.outputCostPer1k
        (Except.ok
          { content := resp.text.getD ""
            model := cfg.modelId
            usage :=
              { inputTokens := inputTokens
                outputTokens := outputTokens
                totalTokens := inputTokens + outputTokens
                cost := cost } },
         [VendorRequest.anthropic req])

/-- The request object chatOpenAI builds: a system message prepended when
the system prompt is truthy, then the messages with roles passed through
unchanged. -/
def openAIRequestOf (cfg : ModelConfig) (systemPrompt : Option String)
    (messages : List RoleContent) : OpenAIRequest :=
  { model := cfg.modelId
    maxTokens := cfg.maxTokens
    messages :=
      (if truthy systemPrompt then [⟨"system", systemPrompt.getD ""⟩] else [])
        ++ messages.map (fun m => ⟨m.role, m.content⟩) }

/-- The chatOpenAI branch of the AI router: credential guard, one vendor
call, usage extraction with the zero fallbacks, cost computed from the
registry prices. -/
def chatOpenAI (env : Env) (oracle : Oracle) (cfg : ModelConfig)
    (messages : List RoleContent) (systemPrompt : Option String) :
    Except ChatError ChatResult × List VendorRequest :=
  if !(truthy env.openaiApiKey) then
    (Except.error (ChatError.providerUnconfigured "OpenAI API key not configured"), [])
  else
    let req := openAIRequestOf cfg systemPrompt messages
    match oracle (VendorRequest.openai req) with
    | Except.error e =>
        (Except.error (ChatError.providerError e), [VendorRequest.openai req])
    | Except.ok resp =>
        let inputTokens := resp.inputTokens.getD 0
        let outputTokens := resp.outputTokens.getD 0
        let cost := (inputTokens : ℚ) / 1000 * cfg.inputCostPer1k
          + (outputTokens : ℚ) / 1000 * cfg.outputCostPer1k
        (Except.ok
          { content := resp.text.getD ""
            model := cfg.modelId
            usage :=
              { inputTokens := inputTokens
                outputTokens := outputTokens
                totalTokens := inputTokens + outputTokens
                cost := cost } },
         [VendorRequest.openai req])

/-- The chat entry point of the AI router: default model, registry
lookup, dispatch on the provider tag. -/
def chat (env : Env) (oracle : Oracle) (model : Option String)
    (messages : List RoleContent) (systemPrompt : Option String) :
    Except ChatError ChatResult × List VendorRequest :=
  let m := model.getD "claude-3-5-sonnet"
  match lookupModel m with
  | none => (Except.error (ChatError.unknownModel m), [])
  | some cfg =>
      if cfg.provider == "anthropic" then
        chatAnthropic env oracle cfg messages systemPrompt
      else if cfg.provider == "openai" then
        chatOpenAI env oracle cfg messages systemPrompt
      else (Except.error (ChatError.unsupportedProvider cfg.provider), [])

/-- C6: a chat request naming a model identifier absent from the registry
fails with UnknownModel and issues no vendor request, so no provider
adapter is invoked. -/
theorem C6_unknown_model_no_dispatch (env : Env) (oracle : Oracle)
    (messages : List RoleContent) (systemPrompt : Option String) (m : String)
    (h : lookupModel m = none) :
    chat env oracle (some m) messages systemPrompt =
      (Except.error (ChatError.unknownModel m), []) := by
  simp only [chat, Option.getD_some, h]

/-- Concrete configured environment used by witnesses. -/
def envBoth : Env := ⟨some "anthropic-key", some "openai-key"⟩

/-- Concrete unconfigured environment used by witnesses. -/
def envNone : Env := ⟨none, none⟩

/-- Concrete vendor oracle used by witnesses: every call succeeds with a
fixed response. -/
def oracleOk : Oracle := fun _ =>
  Except.ok ⟨some "Hello there", some 100, some 50⟩

/-- Witness for C6 at the unregistered identifier gpt-5. -/
theorem C6_unknown_model_no_dispatch_witness :
    lookupModel "gpt-5" = none ∧
    chat envBoth oracleOk (some "gpt-5") [] none =
      (Except.error (ChatError.unknownModel "gpt-5"), []) :=
  ⟨by decide, C6_unknown_model_no_dispatch envBoth oracleOk [] none "gpt-5" (by decide)⟩

/-- Whether the provider named by a registry entry has a configured
credential (the client singletons of the AI router are non-null exactly
when the corresponding environment key is truthy). -/
def providerKeyConfigured (env : Env) (provider : String) : Bool :=
  if provider == "anthropic" then truthy env.anthropicApiKey
  else if provider == "openai" then truthy env.openaiApiKey
  else false

/-- Every registry entry carries the provider tag anthropic or openai. -/
theorem registry_provider_cases (m : String) (cfg : ModelConfig)
    (h : lookupModel m = some cfg) :
    cfg.provider = "anthropic" ∨ cfg.provider = "openai" := by
  unfold lookupModel at h
  cases hf : MODELS.find? (fun p => p.1 == m) with
  | none => rw [hf] at h; simp at h
  | some p =>
      rw [hf] at h
      simp only [Option.map_some', Option.some.injEq] at h
      have hm := List.mem_of_find?_eq_some hf
      subst h
      unfold MODELS at hm
      fin_cases hm <;> decide

/-- C3: on every successful dispatch the returned cost is computed from
the registry entry of the requested model by the per-1k price formula, and
totalTokens is the sum of the token counts. -/
theorem C3_cost_from_registry (env : Env) (oracle : Oracle) (model : Option String)
    (messages : List RoleContent) (systemPrompt : Option String)
    (cfg : ModelConfig) (r : ChatResult) (calls : List VendorRequest)
    (hcfg : lookupModel (model.getD "claude-3-5-sonnet") = some cfg)
    (hok : chat env oracle model messages systemPrompt = (Except.ok r, calls)) :
    r.usage.cost = (r.usage.inputTokens : ℚ) / 1000 * cfg.inputCostPer1k
        + (r.usage.outputTokens : ℚ) / 1000 * cfg.outputCostPer1k
      ∧ r.usage.totalTokens = r.usage.inputTokens + r.usage.outputTokens := by
  simp only [chat, hcfg] at hok
  split at hok
  · simp only [chatAnthropic] at hok
    split at hok
    · simp at hok
    · split at hok
      · simp at hok
      · simp only [Prod.mk.injEq, Except.ok.injEq] at hok
        obtain ⟨h1, _⟩ := hok
        subst h1
        exact ⟨rfl, rfl⟩
  · split at hok
    · simp only [chatOpenAI] at hok
      split at hok
      · simp at hok
      · split at hok
        · simp at hok
        · simp only [Prod.mk.injEq, Except.ok.injEq] at hok
          obtain ⟨h1, _⟩ := hok
          subst h1
          exact ⟨rfl, rfl⟩
    · simp at hok

/-- The registry entry of claude-3-5-sonnet, used by witnesses. -/
def cfgSonnet : ModelConfig :=
  ⟨"anthropic", "claude-3-5-sonnet-20241022", 8192, 3/1000, 15/1000⟩

/-- The registry entry of gpt-4o, used by witnesses. -/
def cfgGpt4o : ModelConfig := ⟨"openai", "gpt-4o", 4096, 5/1000, 15/1000⟩

/-- Concrete successful dispatch used by the C3 witness. -/
def chatExPair : Except ChatError ChatResult × List VendorRequest :=
  chat envBoth oracleOk (some "claude-3-5-sonnet") [] none

/-- The chat result inside chatExPair. -/
def resEx : ChatResult :=
  match chatExPair.1 with
  | Except.ok r => r
  | Except.error _ => ⟨"", "", ⟨0, 0, 0, 0⟩⟩

/-- Witness for C3 on a concrete successful claude-3-5-sonnet dispatch. -/
theorem C3_cost_from_registry_witness :
    lookupModel ((some "claude-3-5-sonnet").getD "claude-3-5-sonnet") = some cfgSonnet ∧
    chat envBoth oracleOk (some "claude-3-5-sonnet") [] none = (Except.ok resEx, chatExPair.2) ∧
    (resEx.usage.cost = (resEx.usage.inputTokens : ℚ) / 1000 * cfgSonnet.inputCostPer1k
        + (resEx.usage.outputTokens : ℚ) / 1000 * cfgSonnet.outputCostPer1k
      ∧ resEx.usage.totalTokens = resEx.usage.inputTokens + resEx.usage.outputTokens) :=
  ⟨rfl, rfl,
    C3_cost_from_registry envBoth oracleOk (some "claude-3-5-sonnet") [] none
      cfgSonnet resEx chatExPair.2 rfl rfl⟩

/-- C7: a chat request naming a registered model whose provider credential
is not configured fails with the provider-unconfigured error and issues no
vendor request. -/
theorem C7_unconfigured_no_call (env : Env) (oracle : Oracle) (model : Option String)
    (messages : List RoleContent) (systemPrompt : Option String) (cfg : ModelConfig)
    (hcfg : lookupModel (model.getD "claude-3-5-sonnet") = some cfg)
    (hkey : providerKeyConfigured env cfg.provider = false) :
    ∃ e, chat env oracle model messages systemPrompt = (Except.error e, [])
      ∧ e.isProviderUnconfigured = true := by
  rcases registry_provider_cases _ cfg hcfg with hp | hp
  · refine ⟨ChatError.providerUnconfigured "Anthropic API key not configured", ?_, rfl⟩
    simp only [providerKeyConfigured, hp] at hkey
    simp only [beq_self_eq_true, if_true] at hkey
    simp [chat, hcfg, hp, chatAnthropic, hkey]
  · refine ⟨ChatError.providerUnconfigured "OpenAI API key not configured", ?_, rfl⟩
    simp only [providerKeyConfigured, hp] at hkey
    simp only [beq_self_eq_true, if_true] at hkey
    have hne : ("openai" == "anthropic") = false := by decide
    simp only [hne, Bool.false_eq_true, if_false] at hkey
    simp [chat, hcfg, hp, chatOpenAI, hkey]

/-- Witness for C7: gpt-4o requested with no OpenAI credential. -/
theorem C7_unconfigured_no_call_witness :
    lookupModel ((some "gpt-4o").getD "claude-3-5-sonnet") = some cfgGpt4o ∧
    providerKeyConfigured envNone cfgGpt4o.provider = false ∧
    (∃ e, chat envNone oracleOk (some "gpt-4o") [] none = (Except.error e, [])
      ∧ e.isProviderUnconfigured = true) :=
  ⟨rfl, rfl,
    C7_unconfigured_no_call envNone oracleOk (some "gpt-4o") [] none cfgGpt4o rfl rfl⟩

/-- Zipping a list with its image under a map pairs each element with its
image. -/
theorem zip_map_image (f : RoleContent → RoleContent) (l : List RoleContent) :
    ∀ p ∈ l.zip (l.map f), p.2 = f p.1 := by
  induction l with
  | nil => intro p hp; simp at hp
  | cons a as ih =>
      intro p hp
      rw [List.map_cons, List.zip_cons_cons] at hp
      rcases List.mem_cons.mp hp with h | h
      · subst h; rfl
      · exact ih p h

/-- C10: when the Anthropic credential is configured, the adapter issues
exactly one vendor request whose message list is the input list with every
non-user role coerced to assistant and contents preserved, every role in
it is user or assistant, and the system prompt travels only in the
dedicated system field. -/
theorem C10_anthropic_roles (env : Env) (oracle : Oracle) (cfg : ModelConfig)
    (messages : List RoleContent) (systemPrompt : Option String)
    (hkey : truthy env.anthropicApiKey = true) :
    (chatAnthropic env oracle cfg messages systemPrompt).2 =
      [VendorRequest.anthropic (anthropicRequestOf cfg systemPrompt messages)] ∧
    (∀ m ∈ (anthropicRequestOf cfg systemPrompt messages).messages,
      m.role = "user" ∨ m.role = "assistant") ∧
    (anthropicRequestOf cfg systemPrompt messages).messages.length = messages.length ∧
    (∀ p ∈ messages.zip (anthropicRequestOf cfg systemPrompt messages).messages,
      (p.1.role = "user" → p.2.role = "user") ∧
      (p.1.role ≠ "user" → p.2.role = "assistant") ∧
      p.2.content = p.1.content) ∧
    (anthropicRequestOf cfg systemPrompt messages).system =
      orDefaultStr systemPrompt "You are a helpful assistant." := by
  refine ⟨?_, ?_, ?_, ?_, rfl⟩
  · unfold chatAnthropic
    rw [hkey]
    cases h : oracle (VendorRequest.anthropic (anthropicRequestOf cfg systemPrompt messages)) with
    | error e => simp [h]
    | ok resp => simp [h]
  · intro m hm
    simp only [anthropicRequestOf, List.mem_map] at hm
    obtain ⟨a, _, rfl⟩ := hm
    by_cases h : a.role == "user"
    · left; simp [h]
    · right; simp [h]
  · simp [anthropicRequestOf]
  · intro p hp
    have h2 := zip_map_image
      (fun m => ⟨if m.role == "user" then "user" else "assistant", m.content⟩)
      messages p hp
    rw [h2]
    by_cases h : p.1.role = "user"
    · refine ⟨fun _ => ?_, fun hne => absurd h hne, rfl⟩
      simp [h]
    · refine ⟨fun hu => absurd hu h, fun _ => ?_, rfl⟩
      simp only [beq_iff_eq]
      rw [if_neg h]

/-- Concrete history used by the C10 witness, containing a hypothetical
system role. -/
def msgsC10 : List RoleContent :=
  [⟨"system", "leaked instructions"⟩, ⟨"user", "hi"⟩, ⟨"assistant", "hello"⟩]

/-- Witness for C10 on a concrete history with a system-role entry. -/
theorem C10_anthropic_roles_witness :
    truthy envBoth.anthropicApiKey = true ∧
    ((chatAnthropic envBoth oracleOk cfgSonnet msgsC10 (some "prompt")).2 =
        [VendorRequest.anthropic (anthropicRequestOf cfgSonnet (some "prompt") msgsC10)] ∧
      (∀ m ∈ (anthropicRequestOf cfgSonnet (some "prompt") msgsC10).messages,
        m.role = "user" ∨ m.role = "assistant") ∧
      (anthropicRequestOf cfgSonnet (some "prompt") msgsC10).messages.length =
        msgsC10.length ∧
      (∀ p ∈ msgsC10.zip (anthropicRequestOf cfgSonnet (some "prompt") msgsC10).messages,
        (p.1.role = "user" → p.2.role = "user") ∧
        (p.1.role ≠ "user" → p.2.role = "assistant") ∧
        p.2.content = p.1.content) ∧
      (anthropicRequestOf cfgSonnet (some "prompt") msgsC10).system =
        orDefaultStr (some "prompt") "You are a helpful assistant.") :=
  ⟨rfl, C10_anthropic_roles envBoth oracleOk cfgSonnet msgsC10 (some "prompt") rfl⟩

/-- A row of the conversations table (title is always supplied by the one
INSERT in scope). -/
structure Conversation where
  id : String
  user_id : String
  title : String
  created_at : Nat
  updated_at : Nat
deriving DecidableEq

/-- A row of the messages table. -/
structure Message where
  id : String
  conversation_id : String
  role : String
  content : String
  model : Option String
  tokens_used : Nat
  cost : ℚ
  created_at : Nat
deriving DecidableEq

/-- The persistent state: the two tables touched by the chat routes and
the server clock that assigns CURRENT_TIMESTAMP values. -/
structure Db where
  conversations : List Conversation
  messages : List Message
  clock : Nat
deriving DecidableEq

/-- SELECT from messages filtered by conversation and ordered by
created_at ascending (ORDER BY as an insertion sort on the column). -/
def messagesOfConv (db : Db) (cid : String) : List Message :=
  List.insertionSort (fun a b => a.created_at ≤ b.created_at)
    (db.messages.filter (fun m => m.conversation_id == cid))

/-- The bounded history query of the Conversation Store: oldest-first with
a LIMIT. -/
def getHistory (db : Db) (cid : String) (limit : Nat) : List Message :=
  (messagesOfConv db cid).take limit

/-- The column values supplied by one INSERT INTO messages (everything but
the server-assigned timestamp). -/
structure AppendSpec where
  id : String
  role : String
  content : String
  model : Option String
  tokens_used : Nat
  cost : ℚ
deriving DecidableEq

/-- INSERT INTO messages: the row receives the current clock value as its
created_at and the clock advances. -/
def insertMessageRow (db : Db) (cid : String) (s : AppendSpec) : Db :=
  { db with
    messages := db.messages ++
      [⟨s.id, cid, s.role, s.content, s.model, s.tokens_used, s.cost, db.clock⟩]
    clock := db.clock + 1 }

/-- INSERT INTO conversations: created_at and updated_at both default to
the current clock value and the clock advances. -/
def insertConversationRow (db : Db) (cid uid title : String) : Db :=
  { db with
    conversations := db.conversations ++ [⟨cid, uid, title, db.clock, db.clock⟩]
    clock := db.clock + 1 }

/-- The body of POST /api/chat as read from the request. -/
structure ChatPostRequest where
  message : Option String
  conversationId : Option String
  model : Option String

/-- The identifiers produced by generateId during one request, supplied as
parameters since the generator draws on the wall clock and randomness. -/
structure FreshIds where
  convId : String
  userMsgId : String
  assistantMsgId : String

/-- The conversation id the POST handler operates on: the supplied id when
truthy, otherwise the freshly generated one. -/
def resolvedConvId (ids : FreshIds) (req : ChatPostRequest) : String :=
  if truthy req.conversationId then req.conversationId.getD "" else ids.convId

/-- The JSON body of a POST /api/chat response. -/
inductive ChatBody where
  | failure (error : String)
  | success (message : String) (conversationId : String) (model : String) (usage : Usage)
deriving DecidableEq

/-- Everything observable about one POST /api/chat invocation: status and
body, the post-state of the database, the message list handed to the AI
router (none when the router was never invoked), and the vendor requests
issued. -/
structure HandlerResult where
  status : Nat
  body : ChatBody
  db : Db
  dispatched : Option (List RoleContent)
  vendorCalls : List VendorRequest
deriving DecidableEq

/-- The POST /api/chat handler: validate, lazily create the conversation,
load bounded history, append the new user message in memory, persist the
user message, dispatch, persist the assistant message on success. -/
def chatPostHandler (env : Env) (oracle : Oracle) (ids : FreshIds)
    (userId : String) (req : ChatPostRequest) (db : Db) : HandlerResult :=
  if !(truthy req.message) then
    { status := 400, body := ChatBody.failure "Message is required",
      db := db, dispatched := none, vendorCalls := [] }
  else
    let msg := req.message.getD ""
    let convId := resolvedConvId ids req
    let db1 := if truthy req.conversationId then db
      else insertConversationRow db ids.convId userId (msg.take 50)
    let history := (getHistory db1 convId 20).map (fun m => RoleContent.mk m.role m.content)
    let messages := history ++ [RoleContent.mk "user" msg]
    let db2 := insertMessageRow db1 convId ⟨ids.userMsgId, "user", msg, none, 0, 0⟩
    match chat env oracle (some (req.model.getD "claude-3-5-sonnet")) messages
        (some "You are a helpful AI assistant.") with
    | (Except.error _, calls) =>
        { status := 500, body := ChatBody.failure "Failed to get AI response",
          db := db2, dispatched := some messages, vendorCalls := calls }
    | (Except.ok r, calls) =>
        let db3 := insertMessageRow db2 convId
          ⟨ids.assistantMsgId, "assistant", r.content, some r.model,
            r.usage.totalTokens, r.usage.cost⟩
        { status := 200, body := ChatBody.success r.content convId r.model r.usage,
          db := db3, dispatched := some messages, vendorCalls := calls }

/-- The projection SELECT id, role, content, model, created_at used by the
GET /api/chat/conversations/:id handler. -/
structure MessageView where
  id : String
  role : String
  content : String
  model : Option String
  created_at : Nat
deriving DecidableEq

/-- Project a message row to the columns the GET handler selects. -/
def viewOfMessage (m : Message) : MessageView :=
  ⟨m.id, m.role, m.content, m.model, m.created_at⟩

/-- The JSON body of a GET /api/chat/conversations/:id response. -/
inductive ConvBody where
  | failure (error : String)
  | full (conv : Conversation) (messages : List MessageView)
deriving DecidableEq

/-- The GET /api/chat/conversations/:id handler: the conversation row is
looked up filtered by both the id and the requesting user, a miss yields
404, a hit yields the row plus all its messages oldest-first. -/
def getConversationHandler (db : Db) (userId cid : String) : Nat × ConvBody :=
  match db.conversations.find? (fun c => c.id == cid && c.user_id == userId) with
  | none => (404, ConvBody.failure "Conversation not found")
  | some conv => (200, ConvBody.full conv ((messagesOfConv db cid).map viewOfMessage))

/-- The projection SELECT id, title, created_at, updated_at used by the
GET /api/chat/conversations handler. -/
structure ConvSummary where
  id : String
  title : String
  created_at : Nat
  updated_at : Nat
deriving DecidableEq

/-- The GET /api/chat/conversations handler: the caller's conversations
ordered by updated_at descending, LIMIT 50. -/
def listConversationsHandler (db : Db) (userId : String) : List ConvSummary :=
  (List.insertionSort (fun a b => b.updated_at ≤ a.updated_at)
    ((db.conversations.filter (fun c => c.user_id == userId)).map
      (fun c => (⟨c.id, c.title, c.created_at, c.updated_at⟩ : ConvSummary)))).take 50

/-- Truthiness of a present string. -/
theorem truthy_some_of_ne (s : String) (h : s ≠ "") : truthy (some s) = true := by
  simp only [truthy]
  exact bne_iff_ne.mpr h

/-- What the POST handler hands to the AI router: the bounded oldest-first
history of the resolved conversation read before the user insert, with the
new user message appended last. -/
theorem chatPostHandler_dispatched (env : Env) (oracle : Oracle) (ids : FreshIds)
    (userId : String) (req : ChatPostRequest) (db : Db) (msg : String)
    (hmsg : req.message = some msg) (hne : msg ≠ "") :
    (chatPostHandler env oracle ids userId req db).dispatched =
      some (((getHistory
          (if truthy req.conversationId then db
            else insertConversationRow db ids.convId userId (msg.take 50))
          (resolvedConvId ids req) 20).map (fun m => RoleContent.mk m.role m.content))
        ++ [RoleContent.mk "user" msg]) := by
  have ht : truthy (some msg) = true := truthy_some_of_ne msg hne
  simp only [chatPostHandler, hmsg, Option.getD_some, ht, Bool.not_true,
    Bool.false_eq_true, ite_false]
  split
  · rfl
  · rfl

/-- C1: for a chat request naming an existing conversation, the message
list passed to the provider is exactly the persisted messages of that
conversation oldest-first capped at 20 with the new user message appended
last, and the new user message contributes exactly one extra occurrence to
that list. -/
theorem C1_history_passed_to_adapter (env : Env) (oracle : Oracle) (ids : FreshIds)
    (userId : String) (req : ChatPostRequest) (db : Db) (msg cid : String)
    (hmsg : req.message = some msg) (hne : msg ≠ "")
    (hcid : req.conversationId = some cid) (hcne : cid ≠ "")
    (hex : ∃ c ∈ db.conversations, c.id = cid) :
    (chatPostHandler env oracle ids userId req db).dispatched =
      some (((getHistory db cid 20).map (fun m => RoleContent.mk m.role m.content))
        ++ [RoleContent.mk "user" msg]) ∧
    (((getHistory db cid 20).map (fun m => RoleContent.mk m.role m.content))
        ++ [RoleContent.mk "user" msg]).count (RoleContent.mk "user" msg) =
      ((getHistory db cid 20).map (fun m => RoleContent.mk m.role m.content)).count
        (RoleContent.mk "user" msg) + 1 := by
  have hc : truthy req.conversationId = true := hcid ▸ truthy_some_of_ne cid hcne
  have hd := chatPostHandler_dispatched env oracle ids userId req db msg hmsg hne
  rw [hc, if_pos rfl] at hd
  have hr : resolvedConvId ids req = cid := by
    have hc2 : truthy (some cid) = true := truthy_some_of_ne cid hcne
    simp [resolvedConvId, hcid, hc2]
  rw [hr] at hd
  refine ⟨hd, ?_⟩
  rw [List.count_append]
  simp

/-- Concrete database used by the C1 witness: one conversation with two
persisted messages. -/
def dbC1 : Db :=
  ⟨[⟨"c1", "u1", "hi", 0, 0⟩],
   [⟨"m0", "c1", "user", "hi", none, 0, 0, 1⟩,
    ⟨"m1", "c1", "assistant", "hello", some "claude-3-5-sonnet-20241022", 5, 0, 2⟩],
   3⟩

/-- Concrete request used by the C1 witness. -/
def reqC1 : ChatPostRequest := ⟨some "how are you", some "c1", none⟩

/-- Concrete fresh identifiers used by the C1 witness. -/
def idsC1 : FreshIds := ⟨"cFresh", "mUserNew", "mAsstNew"⟩

/-- Witness for C1 on a concrete conversation with prior history. -/
theorem C1_history_passed_to_adapter_witness :
    reqC1.message = some "how are you" ∧ "how are you" ≠ "" ∧
    reqC1.conversationId = some "c1" ∧ "c1" ≠ "" ∧
    (∃ c ∈ dbC1.conversations, c.id = "c1") ∧
    ((chatPostHandler envBoth oracleOk idsC1 "u1" reqC1 dbC1).dispatched =
        some (((getHistory dbC1 "c1" 20).map (fun m => RoleContent.mk m.role m.content))
          ++ [RoleContent.mk "user" "how are you"]) ∧
      (((getHistory dbC1 "c1" 20).map (fun m => RoleContent.mk m.role m.content))
          ++ [RoleContent.mk "user" "how are you"]).count
          (RoleContent.mk "user" "how are you") =
        ((getHistory dbC1 "c1" 20).map (fun m => RoleContent.mk m.role m.content)).count
          (RoleContent.mk "user" "how are you") + 1) :=
  ⟨rfl, by decide, rfl, by decide, by decide,
    C1_history_passed_to_adapter envBoth oracleOk idsC1 "u1" reqC1 dbC1
      "how are you" "c1" rfl (by decide) rfl (by decide) (by decide)⟩

/-- C2: when the POST handler fails with 500 after the user turn (provider
dispatch failure), the user message is still persisted in the
conversation, and any getHistory wide enough to cover the conversation
returns it. -/
theorem C2_user_message_persisted_on_failure (env : Env) (oracle : Oracle)
    (ids : FreshIds) (userId : String) (req : ChatPostRequest) (db : Db) (msg : String)
    (hmsg : req.message = some msg) (hne : msg ≠ "")
    (h500 : (chatPostHandler env oracle ids userId req db).status = 500) :
    (∃ m ∈ (chatPostHandler env oracle ids userId req db).db.messages,
      m.id = ids.userMsgId ∧ m.role = "user" ∧ m.content = msg ∧
      m.conversation_id = resolvedConvId ids req) ∧
    (∀ n, (messagesOfConv (chatPostHandler env oracle ids userId req db).db
        (resolvedConvId ids req)).length ≤ n →
      ∃ m ∈ getHistory (chatPostHandler env oracle ids userId req db).db
          (resolvedConvId ids req) n,
        m.id = ids.userMsgId ∧ m.role = "user" ∧ m.content = msg) := by
  have ht : truthy (some msg) = true := truthy_some_of_ne msg hne
  have hcore : ∃ m ∈ (chatPostHandler env oracle ids userId req db).db.messages,
      m.id = ids.userMsgId ∧ m.role = "user" ∧ m.content = msg ∧
      m.conversation_id = resolvedConvId ids req := by
    simp only [chatPostHandler, hmsg, Option.getD_some, ht, Bool.not_true,
      Bool.false_eq_true, ite_false]
    split
    · refine ⟨⟨ids.userMsgId, resolvedConvId ids req, "user", msg, none, 0, 0,
          (if truthy req.conversationId then db
            else insertConversationRow db ids.convId userId (msg.take 50)).clock⟩,
        ?_, rfl, rfl, rfl, rfl⟩
      simp [insertMessageRow]
    · refine ⟨⟨ids.userMsgId, resolvedConvId ids req, "user", msg, none, 0, 0,
          (if truthy req.conversationId then db
            else insertConversationRow db ids.convId userId (msg.take 50)).clock⟩,
        ?_, rfl, rfl, rfl, rfl⟩
      simp [insertMessageRow]
  refine ⟨hcore, ?_⟩
  obtain ⟨m, hm, h1, h2, h3, h4⟩ := hcore
  intro n hn
  have hmem : m ∈ messagesOfConv (chatPostHandler env oracle ids userId req db).db
      (resolvedConvId ids req) := by
    unfold messagesOfConv
    rw [(List.perm_insertionSort _ _).mem_iff]
    exact List.mem_filter.mpr ⟨hm, by simp [h4]⟩
  refine ⟨m, ?_, h1, h2, h3⟩
  unfold getHistory
  rw [List.take_of_length_le hn]
  exact hmem

/-- Concrete oracle used by failure witnesses: every vendor call fails. -/
def oracleDown : Oracle := fun _ => Except.error "upstream unavailable"

/-- Witness for C2: a failing provider call still leaves the user message
in history. -/
theorem C2_user_message_persisted_on_failure_witness :
    reqC1.message = some "how are you" ∧ "how are you" ≠ "" ∧
    (chatPostHandler envBoth oracleDown idsC1 "u1" reqC1 dbC1).status = 500 ∧
    ((∃ m ∈ (chatPostHandler envBoth oracleDown idsC1 "u1" reqC1 dbC1).db.messages,
        m.id = idsC1.userMsgId ∧ m.role = "user" ∧ m.content = "how are you" ∧
        m.conversation_id = resolvedConvId idsC1 reqC1) ∧
      (∀ n, (messagesOfConv (chatPostHandler envBoth oracleDown idsC1 "u1" reqC1 dbC1).db
          (resolvedConvId idsC1 reqC1)).length ≤ n →
        ∃ m ∈ getHistory (chatPostHandler envBoth oracleDown idsC1 "u1" reqC1 dbC1).db
            (resolvedConvId idsC1 reqC1) n,
          m.id = idsC1.userMsgId ∧ m.role = "user" ∧ m.content = "how are you")) :=
  ⟨rfl, by decide, by decide,
    C2_user_message_persisted_on_failure envBoth oracleDown idsC1 "u1" reqC1 dbC1
      "how are you" rfl (by decide) (by decide)⟩

/-- C4: a conversation owned by a different user produces the identical
404 response as a nonexistent conversation id, and never a 403. -/
theorem C4_other_owner_indistinguishable (db dbNo : Db) (userId cid : String)
    (hothers : ∀ c ∈ db.conversations, c.id = cid → c.user_id ≠ userId)
    (hnone : ∀ c ∈ dbNo.conversations, c.id ≠ cid) :
    getConversationHandler db userId cid =
      (404, ConvBody.failure "Conversation not found") ∧
    getConversationHandler dbNo userId cid = getConversationHandler db userId cid ∧
    (getConversationHandler db userId cid).1 ≠ 403 := by
  have h1 : db.conversations.find? (fun c => c.id == cid && c.user_id == userId) = none := by
    rw [List.find?_eq_none]
    intro c hc
    simp only [Bool.and_eq_true, beq_iff_eq, not_and]
    exact fun hid => hothers c hc hid
  have h2 : dbNo.conversations.find? (fun c => c.id == cid && c.user_id == userId) = none := by
    rw [List.find?_eq_none]
    intro c hc
    simp only [Bool.and_eq_true, beq_iff_eq, not_and]
    exact fun hid => absurd hid (hnone c hc)
  refine ⟨?_, ?_, ?_⟩
  · simp [getConversationHandler, h1]
  · simp [getConversationHandler, h1, h2]
  · simp [getConversationHandler, h1]

/-- Conversation owned by someone else, used by the C4 witness. -/
def dbOwnedByOther : Db := ⟨[⟨"c9", "owner", "private notes", 0, 0⟩], [], 1⟩

/-- Database with no conversations, used by the C4 witness. -/
def dbNoConvs : Db := ⟨[], [], 1⟩

/-- Witness for C4: an intruder probing an existing conversation id gets
the same 404 as for a missing id. -/
theorem C4_other_owner_indistinguishable_witness :
    (∀ c ∈ dbOwnedByOther.conversations, c.id = "c9" → c.user_id ≠ "intruder") ∧
    (∀ c ∈ dbNoConvs.conversations, c.id ≠ "c9") ∧
    (getConversationHandler dbOwnedByOther "intruder" "c9" =
        (404, ConvBody.failure "Conversation not found") ∧
      getConversationHandler dbNoConvs "intruder" "c9" =
        getConversationHandler dbOwnedByOther "intruder" "c9" ∧
      (getConversationHandler dbOwnedByOther "intruder" "c9").1 ≠ 403) :=
  ⟨by decide, by decide,
    C4_other_owner_indistinguishable dbOwnedByOther dbNoConvs "intruder" "c9"
      (by decide) (by decide)⟩

/-- Conversation created first, used by the C5 evaluation. -/
def convA : Conversation := ⟨"convA", "u1", "first chat", 0, 0⟩

/-- Conversation created second, used by the C5 evaluation. -/
def convB : Conversation := ⟨"convB", "u1", "second chat", 1, 1⟩

/-- Database at clock 5 holding the two conversations. -/
def dbC5 : Db := ⟨[convA, convB], [], 5⟩

/-- A message appended to the older conversation convA. -/
def reqC5 : ChatPostRequest := ⟨some "hello again", some "convA", some "claude-3-5-sonnet"⟩

/-- Fresh identifiers for the C5 evaluation. -/
def idsC5 : FreshIds := ⟨"convNew", "msgUser", "msgAsst"⟩

/-- The handler output for the C5 evaluation. -/
def outC5 : HandlerResult := chatPostHandler envBoth oracleOk idsC5 "u1" reqC5 dbC5

/-- C5 evaluation: a successful chat request appends a message to convA at
clock 5, yet the conversations table is left byte-for-byte unchanged
(convA keeps updated_at 0: no UPDATE of conversations exists on this
path), so the conversation list still orders convB (idle since 1) before
convA (active at 5). -/
theorem C5_no_updated_at_bump :
    outC5.status = 200 ∧
    (∃ m ∈ outC5.db.messages, m.conversation_id = "convA" ∧ m.created_at = 5) ∧
    outC5.db.conversations = [convA, convB] ∧
    listConversationsHandler outC5.db "u1" =
      [⟨"convB", "second chat", 1, 1⟩, ⟨"convA", "first chat", 0, 0⟩] := by
  refine ⟨by decide, ⟨⟨"msgUser", "convA", "user", "hello again", none, 0, 0, 5⟩,
    by decide, by decide, by decide⟩, by decide, by decide⟩

/-- Message rows produced by appending a sequence of supplied column
values starting at a given clock value: each row gets the conversation id
and the successive timestamps. -/
def mkRecords (cid : String) : Nat → List AppendSpec → List Message
  | _, [] => []
  | t, s :: rest =>
      ⟨s.id, cid, s.role, s.content, s.model, s.tokens_used, s.cost, t⟩ ::
        mkRecords cid (t + 1) rest

/-- Appending a sequence of messages to one conversation, one INSERT at a
time. -/
def appendMessages (cid : String) : Db → List AppendSpec → Db
  | db, [] => db
  | db, s :: rest => appendMessages cid (insertMessageRow db cid s) rest

/-- Appending messages appends exactly the corresponding rows, leaves the
conversations table unchanged, and advances the clock. -/
theorem appendMessages_spec (cid : String) (l : List AppendSpec) :
    ∀ db : Db,
      (appendMessages cid db l).messages = db.messages ++ mkRecords cid db.clock l ∧
      (appendMessages cid db l).conversations = db.conversations := by
  induction l with
  | nil => intro db; simp [appendMessages, mkRecords]
  | cons s rest ih =>
      intro db
      constructor
      · rw [appendMessages, (ih (insertMessageRow db cid s)).1]
        simp [insertMessageRow, mkRecords, List.append_assoc]
      · rw [appendMessages, (ih (insertMessageRow db cid s)).2]
        rfl

/-- Every row of mkRecords carries the conversation id it was appended
to. -/
theorem mkRecords_filter (cid : String) (t : Nat) (l : List AppendSpec) :
    (mkRecords cid t l).filter (fun m => m.conversation_id == cid) = mkRecords cid t l := by
  induction l generalizing t with
  | nil => rfl
  | cons s rest ih => simp [mkRecords, List.filter_cons, ih]

/-- Rows of mkRecords have timestamps at or above the starting clock. -/
theorem mkRecords_created_at_ge (cid : String) (t : Nat) (l : List AppendSpec) :
    ∀ m ∈ mkRecords cid t l, t ≤ m.created_at := by
  induction l generalizing t with
  | nil => intro m hm; simp [mkRecords] at hm
  | cons s rest ih =>
      intro m hm
      rw [mkRecords] at hm
      rcases List.mem_cons.mp hm with h | h
      · subst h; exact Nat.le_refl t
      · exact Nat.le_trans (Nat.le_succ t) (ih (t + 1) m h)

/-- mkRecords rows are already sorted by timestamp. -/
theorem mkRecords_sorted (cid : String) (t : Nat) (l : List AppendSpec) :
    List.Sorted (fun a b : Message => a.created_at ≤ b.created_at) (mkRecords cid t l) := by
  induction l generalizing t with
  | nil => exact List.sorted_nil
  | cons s rest ih =>
      rw [mkRecords]
      refine List.sorted_cons.mpr ⟨?_, ih (t + 1)⟩
      intro b hb
      exact Nat.le_trans (Nat.le_succ t) (mkRecords_created_at_ge cid (t + 1) rest b hb)

/-- mkRecords stores exactly the supplied ids, roles and contents in
order. -/
theorem mkRecords_proj (cid : String) (t : Nat) (l : List AppendSpec) :
    (mkRecords cid t l).map (fun m => (m.id, m.role, m.content)) =
      l.map (fun s => (s.id, s.role, s.content)) := by
  induction l generalizing t with
  | nil => rfl
  | cons s rest ih => simp [mkRecords, ih]

/-- C8: appending N messages to a conversation with no prior messages and
then reading it back through the full-conversation endpoint returns
exactly those N messages, oldest-first in insertion order. -/
theorem C8_roundtrip (db : Db) (cid uid : String) (conv : Conversation)
    (l : List AppendSpec)
    (hempty : db.messages.filter (fun m => m.conversation_id == cid) = [])
    (hfind : db.conversations.find? (fun c => c.id == cid && c.user_id == uid) = some conv) :
    getConversationHandler (appendMessages cid db l) uid cid =
      (200, ConvBody.full conv ((mkRecords cid db.clock l).map viewOfMessage)) ∧
    (mkRecords cid db.clock l).map (fun m => (m.id, m.role, m.content)) =
      l.map (fun s => (s.id, s.role, s.content)) := by
  constructor
  · have hm := appendMessages_spec cid l db
    unfold getConversationHandler
    rw [hm.2, hfind]
    unfold messagesOfConv
    rw [hm.1, List.filter_append, hempty, List.nil_append, mkRecords_filter]
    rw [List.Sorted.insertionSort_eq (mkRecords_sorted cid db.clock l)]
  · exact mkRecords_proj cid db.clock l

/-- Database with one empty conversation, used by the C8 witness. -/
def dbC8 : Db := ⟨[⟨"c1", "u1", "thread", 0, 0⟩], [], 3⟩

/-- Two messages to append, used by the C8 witness. -/
def specsC8 : List AppendSpec :=
  [⟨"m1", "user", "question", none, 0, 0⟩,
   ⟨"m2", "assistant", "answer", some "claude-3-5-sonnet-20241022", 7, 0⟩]

/-- Witness for C8 on a concrete empty conversation and two appends. -/
theorem C8_roundtrip_witness :
    dbC8.messages.filter (fun m => m.conversation_id == "c1") = [] ∧
    dbC8.conversations.find? (fun c => c.id == "c1" && c.user_id == "u1") =
      some ⟨"c1", "u1", "thread", 0, 0⟩ ∧
    (getConversationHandler (appendMessages "c1" dbC8 specsC8) "u1" "c1" =
        (200, ConvBody.full ⟨"c1", "u1", "thread", 0, 0⟩
          ((mkRecords "c1" dbC8.clock specsC8).map viewOfMessage)) ∧
      (mkRecords "c1" dbC8.clock specsC8).map (fun m => (m.id, m.role, m.content)) =
        specsC8.map (fun s => (s.id, s.role, s.content))) :=
  ⟨by decide, by decide,
    C8_roundtrip dbC8 "c1" "u1" ⟨"c1", "u1", "thread", 0, 0⟩ specsC8
      (by decide) (by decide)⟩

/-- A possibly absent string is truthy exactly when it is a present
non-empty string. -/
theorem truthy_iff (o : Option String) : truthy o = true ↔ ∃ s, o = some s ∧ s ≠ "" := by
  cases o with
  | none => simp [truthy]
  | some s => simp [truthy, bne_iff_ne]

/-- The identity chain yields none exactly when all four sources are
falsy. -/
theorem resolveUserId_eq_none_iff (r : AuthRequest) :
    resolveUserId r = none ↔
      truthy r.sessionUserId = false ∧ truthy r.authUserId = false ∧
      truthy r.headerUserId = false ∧ truthy r.queryUserId = false := by
  unfold resolveUserId
  cases h1 : truthy r.sessionUserId with
  | true =>
      obtain ⟨s, hs, _⟩ := (truthy_iff _).mp h1
      simp [hs]
  | false =>
      cases h2 : truthy r.authUserId with
      | true =>
          obtain ⟨s, hs, _⟩ := (truthy_iff _).mp h2
          simp [hs]
      | false =>
          cases h3 : truthy r.headerUserId with
          | true =>
              obtain ⟨s, hs, _⟩ := (truthy_iff _).mp h3
              simp [hs]
          | false =>
              cases h4 : truthy r.queryUserId with
              | true =>
                  obtain ⟨s, hs, _⟩ := (truthy_iff _).mp h4
                  simp [hs]
              | false => simp

/-- Whatever the identity chain yields is a non-empty string. -/
theorem resolveUserId_ne_empty (r : AuthRequest) (u : String)
    (h : resolveUserId r = some u) : u ≠ "" := by
  unfold resolveUserId at h
  cases h1 : truthy r.sessionUserId with
  | true =>
      rw [h1] at h
      simp only [if_pos rfl] at h
      obtain ⟨s, hs, hne⟩ := (truthy_iff _).mp h1
      rw [hs] at h
      cases h
      exact hne
  | false =>
      rw [h1] at h
      simp only [Bool.false_eq_true, ite_false] at h
      cases h2 : truthy r.authUserId with
      | true =>
          rw [h2] at h
          simp only [if_pos rfl] at h
          obtain ⟨s, hs, hne⟩ := (truthy_iff _).mp h2
          rw [hs] at h
          cases h
          exact hne
      | false =>
          rw [h2] at h
          simp only [Bool.false_eq_true, ite_false] at h
          cases h3 : truthy r.headerUserId with
          | true =>
              rw [h3] at h
              simp only [if_pos rfl] at h
              obtain ⟨s, hs, hne⟩ := (truthy_iff _).mp h3
              rw [hs] at h
              cases h
              exact hne
          | false =>
              rw [h3] at h
              simp only [Bool.false_eq_true, ite_false] at h
              cases h4 : truthy r.queryUserId with
              | true =>
                  rw [h4] at h
                  simp only [if_pos rfl] at h
                  obtain ⟨s, hs, hne⟩ := (truthy_iff _).mp h4
                  rw [hs] at h
                  cases h
                  exact hne
              | false =>
                  rw [h4] at h
                  simp at h

/-- The dev fallback is non-empty whenever the default is. -/
theorem orDefaultStr_ne_empty (a : Option String) (d : String) (hd : d ≠ "") :
    orDefaultStr a d ≠ "" := by
  cases a with
  | none => simpa [orDefaultStr] using hd
  | some s =>
      rcases eq_or_ne s "" with h | h
      · subst h
        simpa [orDefaultStr] using hd
      · simpa [orDefaultStr, bne_iff_ne.mpr h] using h

/-- The middleware proceeds with the resolved identity when one exists. -/
theorem flexibleAuth_of_some (env : AuthEnv) (r : AuthRequest) (u : String)
    (h : resolveUserId r = some u) : flexibleAuth env r = AuthResult.next u := by
  simp [flexibleAuth, h]

/-- The middleware responds 401 when no identity exists in production. -/
theorem flexibleAuth_of_none_prod (env : AuthEnv) (r : AuthRequest)
    (h : resolveUserId r = none) (hp : env.nodeEnv = some "production") :
    flexibleAuth env r = AuthResult.respond401 := by
  simp [flexibleAuth, h, hp]

/-- The middleware proceeds with the dev fallback when no identity exists
outside production. -/
theorem flexibleAuth_of_none_dev (env : AuthEnv) (r : AuthRequest)
    (h : resolveUserId r = none) (hp : env.nodeEnv ≠ some "production") :
    flexibleAuth env r = AuthResult.next (orDefaultStr env.devUserId "dev-user") := by
  simp [flexibleAuth, h, hp]

/-- The session source wins when truthy. -/
theorem resolveUserId_session (r : AuthRequest) (s : String)
    (hs : r.sessionUserId = some s) (hne : s ≠ "") : resolveUserId r = some s := by
  have hts : truthy (some s) = true := truthy_some_of_ne s hne
  simp [resolveUserId, hs, hts]

/-- The Clerk source wins when the session is falsy and it is truthy. -/
theorem resolveUserId_auth (r : AuthRequest) (s : String)
    (h1 : truthy r.sessionUserId = false)
    (hs : r.authUserId = some s) (hne : s ≠ "") : resolveUserId r = some s := by
  have hts : truthy (some s) = true := truthy_some_of_ne s hne
  simp [resolveUserId, h1, hs, hts]

/-- The header source wins when session and Clerk are falsy and it is
truthy. -/
theorem resolveUserId_header (r : AuthRequest) (s : String)
    (h1 : truthy r.sessionUserId = false) (h2 : truthy r.authUserId = false)
    (hs : r.headerUserId = some s) (hne : s ≠ "") : resolveUserId r = some s := by
  have hts : truthy (some s) = true := truthy_some_of_ne s hne
  simp [resolveUserId, h1, h2, hs, hts]

/-- The query source wins when the first three are falsy and it is
truthy. -/
theorem resolveUserId_query (r : AuthRequest) (s : String)
    (h1 : truthy r.sessionUserId = false) (h2 : truthy r.authUserId = false)
    (h3 : truthy r.headerUserId = false)
    (hs : r.queryUserId = some s) (hne : s ≠ "") : resolveUserId r = some s := by
  have hts : truthy (some s) = true := truthy_some_of_ne s hne
  simp [resolveUserId, h1, h2, h3, hs, hts]

/-- C9: the middleware resolves identity by the fixed precedence chain
session, Clerk, header, query; in production it responds 401 exactly when
all four sources are falsy; outside production it always proceeds with a
non-empty identity, falling back to DEV_USER_ID or dev-user when no source
supplies one. -/
theorem C9_flexibleAuth_precedence (env : AuthEnv) (r : AuthRequest) :
    (∀ s, r.sessionUserId = some s → s ≠ "" →
      flexibleAuth env r = AuthResult.next s) ∧
    (truthy r.sessionUserId = false → ∀ s, r.authUserId = some s → s ≠ "" →
      flexibleAuth env r = AuthResult.next s) ∧
    (truthy r.sessionUserId = false → truthy r.authUserId = false →
      ∀ s, r.headerUserId = some s → s ≠ "" →
      flexibleAuth env r = AuthResult.next s) ∧
    (truthy r.sessionUserId = false → truthy r.authUserId = false →
      truthy r.headerUserId = false → ∀ s, r.queryUserId = some s → s ≠ "" →
      flexibleAuth env r = AuthResult.next s) ∧
    (env.nodeEnv = some "production" →
      (flexibleAuth env r = AuthResult.respond401 ↔
        truthy r.sessionUserId = false ∧ truthy r.authUserId = false ∧
        truthy r.headerUserId = false ∧ truthy r.queryUserId = false)) ∧
    (env.nodeEnv ≠ some "production" →
      (∃ u, flexibleAuth env r = AuthResult.next u ∧ u ≠ "") ∧
      (truthy r.sessionUserId = false → truthy r.authUserId = false →
        truthy r.headerUserId = false → truthy r.queryUserId = false →
        flexibleAuth env r = AuthResult.next (orDefaultStr env.devUserId "dev-user"))) := by
  refine ⟨?_, ?_, ?_, ?_, ?_, ?_⟩
  · intro s hs hne
    exact flexibleAuth_of_some env r s (resolveUserId_session r s hs hne)
  · intro h1 s hs hne
    exact flexibleAuth_of_some env r s (resolveUserId_auth r s h1 hs hne)
  · intro h1 h2 s hs hne
    exact flexibleAuth_of_some env r s (resolveUserId_header r s h1 h2 hs hne)
  · intro h1 h2 h3 s hs hne
    exact flexibleAuth_of_some env r s (resolveUserId_query r s h1 h2 h3 hs hne)
  · intro hp
    constructor
    · intro h401
      cases hres : resolveUserId r with
      | none => exact (resolveUserId_eq_none_iff r).mp hres
      | some u =>
          rw [flexibleAuth_of_some env r u hres] at h401
          exact absurd h401 (by simp)
    · intro hall
      exact flexibleAuth_of_none_prod env r
        ((resolveUserId_eq_none_iff r).mpr hall) hp
  · intro hp
    constructor
    · cases hres : resolveUserId r with
      | none =>
          exact ⟨orDefaultStr env.devUserId "dev-user",
            flexibleAuth_of_none_dev env r hres hp,
            orDefaultStr_ne_empty env.devUserId "dev-user" (by decide)⟩
      | some u =>
          exact ⟨u, flexibleAuth_of_some env r u hres,
            resolveUserId_ne_empty r u hres⟩
    · intro ha hb hc hd
      exact flexibleAuth_of_none_dev env r
        ((resolveUserId_eq_none_iff r).mpr ⟨ha, hb, hc, hd⟩) hp

/-- Witness for C9: a production request with no identity source is
rejected, a development request with no identity source proceeds as
dev-user, and a header identity wins over the query parameter. -/
theorem C9_flexibleAuth_precedence_witness :
    ((⟨none, none, none, none⟩ : AuthRequest).sessionUserId = none ∧
      (⟨some "production", none⟩ : AuthEnv).nodeEnv = some "production" ∧
      (⟨none, none⟩ : AuthEnv).nodeEnv ≠ some "production") ∧
    flexibleAuth ⟨some "production", none⟩ ⟨none, none, none, none⟩ =
      AuthResult.respond401 ∧
    flexibleAuth ⟨none, none⟩ ⟨none, none, none, none⟩ =
      AuthResult.next "dev-user" ∧
    flexibleAuth ⟨some "production", none⟩ ⟨none, none, some "alice", some "bob"⟩ =
      AuthResult.next "alice" :=
  ⟨⟨rfl, rfl, by decide⟩,
    ((C9_flexibleAuth_precedence ⟨some "production", none⟩
        ⟨none, none, none, none⟩).2.2.2.2.1 rfl).mpr
      ⟨rfl, rfl, rfl, rfl⟩,
    (((C9_flexibleAuth_precedence ⟨none, none⟩
        ⟨none, none, none, none⟩).2.2.2.2.2 (by decide)).2 rfl rfl rfl rfl),
    ((C9_flexibleAuth_precedence ⟨some "production", none⟩
        ⟨none, none, some "alice", some "bob"⟩).2.2.1 rfl rfl "alice" rfl
      (by decide))⟩

end SaasChat
